import Mathlib

/-!
Verification development for the placement-eligibility data-access layer
(`database.py`, `sql_queries.py`, `data_generator.py`).

The four SQLite tables are embedded as lists of records; the SQL queries of
`DatabaseManager.get_eligible_students` and of `PlacementInsights` are embedded
as executable relational pipelines: join rows, a boolean WHERE filter, GROUP BY
via key extraction, aggregation per group, and ORDER BY via a merge sort.

SQL conventions modelled explicitly:
  * nullable columns are `Option` values;
  * a comparison against NULL is not TRUE, so a WHERE condition on a NULL
    column drops the row, and a CASE WHEN branch on a NULL comparison falls
    through to the next branch;
  * `AVG`/`MAX` aggregate over the non-NULL values of the group and yield NULL
    when every value is NULL;
  * `ROUND(x, 1)` rounds to one decimal digit (the values rounded in this
    program are nonnegative, so half-up rounding agrees with SQLite's
    half-away-from-zero);
  * `ORDER BY` treats NULL as smaller than every value (`WithBot`);
  * the emission order of GROUP BY groups before the final ORDER BY is not
    observable in any property proved here, so groups are emitted in the order
    `List.dedup` produces.

Machine integers do not overflow in this program's range (SQLite INTEGER is
64-bit and all generated values are tiny), so integer columns are `ℤ` and SQL
real arithmetic (`/ 6.0`, `ROUND`) is over `ℚ`.
-/

/-- Row of the `students` table (schema of `data_generator.py`). -/
structure Student where
  student_id : ℤ
  name : String
  age : ℤ
  gender : String
  email : String
  phone : String
  enrollment_year : ℤ
  course_batch : String
  city : String
  graduation_year : ℤ
deriving DecidableEq, Repr

/-- Row of the `programming` table. -/
structure ProgrammingRecord where
  programming_id : ℤ
  student_id : ℤ
  language : String
  problems_solved : ℤ
  assessments_completed : ℤ
  mini_projects : ℤ
  certifications_earned : ℤ
  latest_project_score : ℤ
deriving DecidableEq, Repr

/-- Row of the `soft_skills` table. -/
structure SoftSkillsRecord where
  soft_skill_id : ℤ
  student_id : ℤ
  communication : ℤ
  teamwork : ℤ
  presentation : ℤ
  leadership : ℤ
  critical_thinking : ℤ
  interpersonal_skills : ℤ
deriving DecidableEq, Repr

/-- Row of the `placements` table.  `company_name`, `placement_package` and
`placement_date` are nullable. -/
structure PlacementRecord where
  placement_id : ℤ
  student_id : ℤ
  mock_interview_score : ℤ
  internships_completed : ℤ
  placement_status : String
  company_name : Option String
  placement_package : Option ℤ
  interview_rounds_cleared : ℤ
  placement_date : Option String
deriving DecidableEq, Repr

/-- The four-table database. -/
structure DB where
  students : List Student
  programming : List ProgrammingRecord
  soft_skills : List SoftSkillsRecord
  placements : List PlacementRecord
deriving Repr

/-- `ROUND(q, 1)` of SQLite on a nonnegative rational: round to the nearest
multiple of 1/10, halves away from zero (= halves up for the nonnegative
values this program rounds). -/
def round1 (q : ℚ) : ℚ := (round (10 * q) : ℚ) / 10

/-- SQL `AVG` over the integer values of a group (the groups this program
averages contain no NULL): sum divided by count, as a rational. -/
def sqlAvgInt (l : List ℤ) : ℚ := (l.sum : ℚ) / (l.length : ℚ)

/-- SQL `MAX` over a nullable integer column of a group: NULL values are
ignored, and the result is NULL when every value is NULL. -/
def sqlMaxInt : List (Option ℤ) → Option ℤ
  | [] => none
  | o :: rest =>
      match o, sqlMaxInt rest with
      | none, acc => acc
      | some v, none => some v
      | some v, some w => some (max v w)

/-- SQL three-valued logic of `x >= c` on a nullable column: NULL compares to
nothing, so the row is not selected. -/
def sqlGeOpt (x : Option ℤ) (c : ℤ) : Bool :=
  match x with
  | none => false
  | some v => decide (c ≤ v)

/-- SQL three-valued logic of `x < c` on a nullable column (used by CASE WHEN
branches, where a NULL comparison falls through). -/
def sqlLtOpt (x : Option ℤ) (c : ℤ) : Bool :=
  match x with
  | none => false
  | some v => decide (v < c)

/-- SQL `=` on a nullable text column: NULL equals nothing. -/
def sqlEqStrOpt (x : Option String) (c : String) : Bool :=
  match x with
  | none => false
  | some v => decide (v = c)

/-- The sum of the six soft-skill scores, `ss.communication + ss.teamwork +
ss.presentation + ss.leadership + ss.critical_thinking +
ss.interpersonal_skills`, as it appears verbatim in every query. -/
def ssSum (ss : SoftSkillsRecord) : ℤ :=
  ss.communication + ss.teamwork + ss.presentation + ss.leadership +
    ss.critical_thinking + ss.interpersonal_skills

/-- The programming rows of one student (`ON s.student_id = prog.student_id`). -/
def progsOf (db : DB) (sid : ℤ) : List ProgrammingRecord :=
  db.programming.filter (fun r => decide (r.student_id = sid))

/-- A row of the join
`students s JOIN placements p ON .. JOIN soft_skills ss ON ..
LEFT JOIN programming prog ON ..` shared by `get_eligible_students`,
query 1 and query 8.  `prog` is `none` for the NULL-padded row the LEFT JOIN
emits when the student has no programming record. -/
structure JoinRow where
  s : Student
  p : PlacementRecord
  ss : SoftSkillsRecord
  prog : Option ProgrammingRecord
deriving DecidableEq, Repr

/-- The LEFT JOIN side: the student's programming rows, or the single
NULL-padded entry when there is none. -/
def leftJoinProgs (db : DB) (sid : ℤ) : List (Option ProgrammingRecord) :=
  match progsOf db sid with
  | [] => [none]
  | l => l.map some

/-- The joined relation: for each student, each matching placement row, each
matching soft-skills row, and one row per matching programming row — or a
single row with NULL programming columns when there is none (LEFT JOIN). -/
def joinRows (db : DB) : List JoinRow :=
  db.students.flatMap (fun s =>
    (db.placements.filter (fun p => decide (p.student_id = s.student_id))).flatMap (fun p =>
      (db.soft_skills.filter (fun ss => decide (ss.student_id = s.student_id))).flatMap (fun ss =>
        (leftJoinProgs db s.student_id).map (fun o => ⟨s, p, ss, o⟩))))

/-- GROUP BY: one group per distinct key of the filtered rows, each group
holding exactly the rows with that key.  The relative emission order of the
groups is irrelevant (a final ORDER BY always follows). -/
def sqlGroupBy {κ : Type} [DecidableEq κ] (key : JoinRow → κ) (rows : List JoinRow) :
    List (κ × List JoinRow) :=
  (rows.map key).dedup.map (fun k => (k, rows.filter (fun r => decide (key r = k))))

/-- Insert into a sorted list: the element goes in front of the first entry it
compares `le` to. -/
def insertBy {ρ : Type} (le : ρ → ρ → Bool) (a : ρ) : List ρ → List ρ
  | [] => [a]
  | b :: t => if le a b then a :: b :: t else b :: insertBy le a t

/-- ORDER BY: a structurally recursive insertion sort on a boolean
comparator (any stable sort realises SQL ORDER BY; the claims proved here are
insensitive to the order of ties). -/
def orderBy {ρ : Type} (le : ρ → ρ → Bool) : List ρ → List ρ
  | [] => []
  | a :: t => insertBy le a (orderBy le t)

/-- Boolean `<` on a nullable integer sort key, NULL below every value. -/
def optLtZ (x y : Option ℤ) : Bool :=
  match x, y with
  | none, none => false
  | none, some _ => true
  | some _, none => false
  | some v, some w => decide (v < w)

/-- Boolean `≤` on a nullable integer sort key, NULL below every value. -/
def optLeZ (x y : Option ℤ) : Bool :=
  match x, y with
  | none, _ => true
  | some _, none => false
  | some v, some w => decide (v ≤ w)

/-- Boolean `≤` on a nullable rational sort key, NULL below every value. -/
def optLeQ (x y : Option ℚ) : Bool :=
  match x, y with
  | none, _ => true
  | some _, none => false
  | some v, some w => decide (v ≤ w)

/-- A nullable sort column as a `WithBot` value: NULL (`⊥`) is smaller than
every value. -/
def nullableKey {α : Type} (o : Option α) : WithBot α :=
  match o with
  | none => ⊥
  | some v => (v : WithBot α)

/-- The value supplied under the `placement_status` key of the criteria dict:
the Python code accepts either a single string or a list of strings
(`isinstance(status_list, str)` check at database.py:215). -/
inductive StatusFilter where
  | str (s : String)
  | list (l : List String)
deriving DecidableEq, Repr

/-- The criteria mapping accepted by `get_eligible_students`.  Every key is
optional (`criteria.get`).  `min_project_score` is a key the presentation
layer (`app.py`) puts into the dict; `get_eligible_students` never reads it. -/
structure Criteria where
  min_problems_solved : Option ℤ := none
  min_project_score : Option ℤ := none
  min_soft_skills_avg : Option ℚ := none
  min_mock_interview : Option ℤ := none
  min_internships : Option ℤ := none
  programming_language : Option String := none
  placement_status : Option StatusFilter := none
  course_batch : Option String := none
  city : Option String := none
deriving DecidableEq, Repr

/-- Python truthiness of `criteria.get(key)` for an integer-valued key:
missing and `0` are falsy (`if criteria.get(...)`). -/
def truthyInt : Option ℤ → Bool
  | none => false
  | some v => decide (v ≠ 0)

/-- Python truthiness for a rational-valued key: missing and `0` are falsy. -/
def truthyRat : Option ℚ → Bool
  | none => false
  | some v => decide (v ≠ 0)

/-- Python truthiness for a string-valued key: missing and `""` are falsy. -/
def truthyStr : Option String → Bool
  | none => false
  | some v => decide (v ≠ "")

/-- Python truthiness of the `placement_status` value: a string is truthy iff
nonempty, a list is truthy iff nonempty. -/
def truthyStatus : Option StatusFilter → Bool
  | none => false
  | some (.str s) => decide (s ≠ "")
  | some (.list l) => decide (l ≠ [])

/-- The normalisation at database.py:215-216: a single string becomes the
one-element list. -/
def statusList : StatusFilter → List String
  | .str s => [s]
  | .list l => l

/-- The dynamically assembled WHERE clause of `get_eligible_students`,
evaluated on one join row.  Each criterion contributes its condition only when
its value is truthy; the conditions are conjoined.  Conditions on the LEFT
JOINed `prog` columns are not satisfied by the NULL-padded row. -/
def rowPasses (c : Criteria) (jr : JoinRow) : Bool :=
  (!truthyInt c.min_problems_solved ||
    sqlGeOpt (jr.prog.map (·.problems_solved)) (c.min_problems_solved.getD 0)) &&
  (!truthyRat c.min_soft_skills_avg ||
    decide (c.min_soft_skills_avg.getD 0 ≤ (ssSum jr.ss : ℚ) / 6)) &&
  (!truthyInt c.min_mock_interview ||
    decide (c.min_mock_interview.getD 0 ≤ jr.p.mock_interview_score)) &&
  (!truthyInt c.min_internships ||
    decide (c.min_internships.getD 0 ≤ jr.p.internships_completed)) &&
  (!truthyStr c.programming_language ||
    sqlEqStrOpt (jr.prog.map (·.language)) (c.programming_language.getD "")) &&
  (!truthyStatus c.placement_status ||
    decide (jr.p.placement_status ∈ statusList ((c.placement_status).getD (.list [])))) &&
  (!truthyStr c.course_batch || decide (jr.s.course_batch = c.course_batch.getD "")) &&
  (!truthyStr c.city || decide (jr.s.city = c.city.getD ""))

/-- The GROUP BY key of `get_eligible_students` (database.py:235-237): all
selected student columns and all selected placement columns. -/
structure EKey where
  student_id : ℤ
  name : String
  age : ℤ
  gender : String
  email : String
  phone : String
  course_batch : String
  city : String
  placement_status : String
  mock_interview_score : ℤ
  internships_completed : ℤ
  company_name : Option String
  placement_package : Option ℤ
deriving DecidableEq, Repr

/-- Key extraction for `get_eligible_students`. -/
def eKey (jr : JoinRow) : EKey :=
  { student_id := jr.s.student_id
    name := jr.s.name
    age := jr.s.age
    gender := jr.s.gender
    email := jr.s.email
    phone := jr.s.phone
    course_batch := jr.s.course_batch
    city := jr.s.city
    placement_status := jr.p.placement_status
    mock_interview_score := jr.p.mock_interview_score
    internships_completed := jr.p.internships_completed
    company_name := jr.p.company_name
    placement_package := jr.p.placement_package }

/-- An output row of `get_eligible_students` (its SELECT list). -/
structure EligibleRow where
  student_id : ℤ
  name : String
  age : ℤ
  gender : String
  email : String
  phone : String
  course_batch : String
  city : String
  placement_status : String
  mock_interview_score : ℤ
  internships_completed : ℤ
  company_name : Option String
  placement_package : Option ℤ
  avg_soft_skills : ℚ
  programming_languages : Option String
  max_problems_solved : Option ℤ
  best_project_score : Option ℤ
deriving DecidableEq, Repr

/-- `GROUP_CONCAT(DISTINCT prog.language)`: the distinct non-NULL languages of
the group joined with commas, NULL when there is none. -/
def groupConcatLangs (g : List JoinRow) : Option String :=
  match (g.filterMap (fun jr => jr.prog.map (·.language))).dedup with
  | [] => none
  | l => some (String.intercalate "," l)

/-- Aggregation of one group of `get_eligible_students`:
`ROUND(AVG(six-score sum) / 6.0, 1)`, `GROUP_CONCAT(DISTINCT language)`,
`MAX(problems_solved)`, `MAX(latest_project_score)`. -/
def eligAgg (k : EKey) (g : List JoinRow) : EligibleRow :=
  { student_id := k.student_id
    name := k.name
    age := k.age
    gender := k.gender
    email := k.email
    phone := k.phone
    course_batch := k.course_batch
    city := k.city
    placement_status := k.placement_status
    mock_interview_score := k.mock_interview_score
    internships_completed := k.internships_completed
    company_name := k.company_name
    placement_package := k.placement_package
    avg_soft_skills := round1 (sqlAvgInt (g.map (fun jr => ssSum jr.ss)) / 6)
    programming_languages := groupConcatLangs g
    max_problems_solved := sqlMaxInt (g.map (fun jr => jr.prog.map (·.problems_solved)))
    best_project_score := sqlMaxInt (g.map (fun jr => jr.prog.map (·.latest_project_score))) }

/-- The ORDER BY key of `get_eligible_students`:
`avg_soft_skills DESC, max_problems_solved DESC, p.mock_interview_score DESC`,
compared lexicographically; the nullable `max_problems_solved` sorts NULL
below every value (`WithBot`). -/
def eOrdKey (r : EligibleRow) : ℚ ×ₗ ((WithBot ℤ) ×ₗ ℤ) :=
  toLex (r.avg_soft_skills,
    toLex (nullableKey r.max_problems_solved, r.mock_interview_score))

/-- Boolean comparator realising the descending ORDER BY (`a` may stand
before `b` iff the key of `b` is lexicographically at most the key of `a`). -/
def eligLe (a b : EligibleRow) : Bool :=
  decide (b.avg_soft_skills < a.avg_soft_skills) ||
    (decide (b.avg_soft_skills = a.avg_soft_skills) &&
      (optLtZ b.max_problems_solved a.max_problems_solved ||
        (decide (b.max_problems_solved = a.max_problems_solved) &&
          decide (b.mock_interview_score ≤ a.mock_interview_score))))

/-- `DatabaseManager.get_eligible_students` (database.py:139-245): join,
dynamic WHERE, GROUP BY, SELECT DISTINCT, ORDER BY. -/
def get_eligible_students (db : DB) (c : Criteria) : List EligibleRow :=
  orderBy eligLe (((sqlGroupBy eKey ((joinRows db).filter (rowPasses c))).map
    (fun kg => eligAgg kg.1 kg.2)).dedup)

/-- The GROUP BY key shared by insight queries 1 and 8 (sql_queries.py:50-52
and 228-230): student columns, placement columns, and the six soft-skill
scores. -/
structure K18 where
  student_id : ℤ
  name : String
  course_batch : String
  city : String
  placement_status : String
  mock_interview_score : ℤ
  internships_completed : ℤ
  communication : ℤ
  teamwork : ℤ
  presentation : ℤ
  leadership : ℤ
  critical_thinking : ℤ
  interpersonal_skills : ℤ
deriving DecidableEq, Repr

/-- Key extraction for queries 1 and 8. -/
def k18 (jr : JoinRow) : K18 :=
  { student_id := jr.s.student_id
    name := jr.s.name
    course_batch := jr.s.course_batch
    city := jr.s.city
    placement_status := jr.p.placement_status
    mock_interview_score := jr.p.mock_interview_score
    internships_completed := jr.p.internships_completed
    communication := jr.ss.communication
    teamwork := jr.ss.teamwork
    presentation := jr.ss.presentation
    leadership := jr.ss.leadership
    critical_thinking := jr.ss.critical_thinking
    interpersonal_skills := jr.ss.interpersonal_skills }

/-- The six-score sum of a query-1/8 group key (those queries read the scores
from the GROUP BY key, not from an aggregate). -/
def ssSumK (k : K18) : ℤ :=
  k.communication + k.teamwork + k.presentation + k.leadership +
    k.critical_thinking + k.interpersonal_skills

/-- An output row of `query_1_top_placement_ready_students`. -/
structure Query1Row where
  name : String
  course_batch : String
  city : String
  placement_status : String
  mock_interview_score : ℤ
  internships_completed : ℤ
  avg_soft_skills : ℚ
  max_problems_solved : Option ℤ
  best_project_score : Option ℤ
  overall_score : Option ℚ
deriving DecidableEq, Repr

/-- Aggregation of one group of query 1.  The composite
`ROUND((p.mock_interview_score * 0.4 + (six-score sum) / 6.0 * 0.3 +
MAX(prog.latest_project_score) * 0.3), 1)` is NULL when the student has no
programming record (NULL propagates through the sum). -/
def query1Agg (k : K18) (g : List JoinRow) : Query1Row :=
  { name := k.name
    course_batch := k.course_batch
    city := k.city
    placement_status := k.placement_status
    mock_interview_score := k.mock_interview_score
    internships_completed := k.internships_completed
    avg_soft_skills := round1 (sqlAvgInt (g.map (fun jr => ssSum jr.ss)) / 6)
    max_problems_solved := sqlMaxInt (g.map (fun jr => jr.prog.map (·.problems_solved)))
    best_project_score := sqlMaxInt (g.map (fun jr => jr.prog.map (·.latest_project_score)))
    overall_score :=
      (sqlMaxInt (g.map (fun jr => jr.prog.map (·.latest_project_score)))).map
        (fun (m : ℤ) => round1 ((k.mock_interview_score : ℚ) * 0.4 +
          (ssSumK k : ℚ) / 6 * 0.3 + (m : ℚ) * 0.3)) }

/-- The ORDER BY key of query 1: `overall_score DESC`, NULL last. -/
def q1Le (a b : Query1Row) : Bool :=
  optLeQ b.overall_score a.overall_score

/-- The rows of `PlacementInsights.query_1_top_placement_ready_students`
before the LIMIT: statuses restricted to Ready/Placed, grouped per student,
ranked by composite score descending. -/
def query_1_rows (db : DB) : List Query1Row :=
  orderBy q1Le ((sqlGroupBy k18 ((joinRows db).filter
      (fun jr => decide (jr.p.placement_status = "Ready") ||
        decide (jr.p.placement_status = "Placed")))).map
    (fun kg => query1Agg kg.1 kg.2))

/-- `PlacementInsights.query_1_top_placement_ready_students`
(sql_queries.py:24-56); the Python default for `limit` is 10. -/
def query_1_top_placement_ready_students (db : DB) (limit : ℕ) : List Query1Row :=
  (query_1_rows db).take limit

/-- The CASE expression of query 8 (sql_queries.py:215-222): the first
matching branch decides the improvement area; a comparison on a NULL
`MAX(prog.problems_solved)` is not TRUE, so that branch falls through. -/
def improvementArea (mock : ℤ) (maxProb : Option ℤ) (sum6 : ℤ)
    (internships : ℤ) : String :=
  if mock < 50 then "Interview Skills"
  else if sqlLtOpt maxProb 30 then "Programming Practice"
  else if (sum6 : ℚ) / 6 < 60 then "Soft Skills"
  else if internships = 0 then "Practical Experience"
  else "General Improvement"

/-- An output row of `query_8_students_needing_improvement`. -/
structure Query8Row where
  name : String
  course_batch : String
  city : String
  placement_status : String
  mock_interview_score : ℤ
  internships_completed : ℤ
  avg_soft_skills : ℚ
  max_problems_solved : Option ℤ
  best_project_score : Option ℤ
  primary_improvement_area : String
deriving DecidableEq, Repr

/-- Aggregation of one group of query 8.  Its `avg_soft_skills` is
`ROUND((six-score sum) / 6.0, 1)` on the key (no AVG); the improvement area
reads the key's scores and the group's `MAX(prog.problems_solved)`. -/
def query8Agg (k : K18) (g : List JoinRow) : Query8Row :=
  { name := k.name
    course_batch := k.course_batch
    city := k.city
    placement_status := k.placement_status
    mock_interview_score := k.mock_interview_score
    internships_completed := k.internships_completed
    avg_soft_skills := round1 ((ssSumK k : ℚ) / 6)
    max_problems_solved := sqlMaxInt (g.map (fun jr => jr.prog.map (·.problems_solved)))
    best_project_score := sqlMaxInt (g.map (fun jr => jr.prog.map (·.latest_project_score)))
    primary_improvement_area :=
      improvementArea k.mock_interview_score
        (sqlMaxInt (g.map (fun jr => jr.prog.map (·.problems_solved))))
        (ssSumK k) k.internships_completed }

/-- The first ORDER BY expression of query 8:
`CASE p.placement_status WHEN 'In Progress' THEN 1 WHEN 'Not Ready' THEN 2 END`
(NULL — smaller than every value — for any other status). -/
def q8StatusRank (status : String) : Option ℤ :=
  if status = "In Progress" then some 1
  else if status = "Not Ready" then some 2
  else none

/-- The ORDER BY key of query 8: status rank, then
`p.mock_interview_score ASC`. -/
def q8Le (a b : Query8Row) : Bool :=
  optLtZ (q8StatusRank a.placement_status) (q8StatusRank b.placement_status) ||
    (decide (q8StatusRank a.placement_status = q8StatusRank b.placement_status) &&
      decide (a.mock_interview_score ≤ b.mock_interview_score))

/-- `PlacementInsights.query_8_students_needing_improvement`
(sql_queries.py:198-238). -/
def query_8_students_needing_improvement (db : DB) : List Query8Row :=
  orderBy q8Le ((sqlGroupBy k18 ((joinRows db).filter
      (fun jr => decide (jr.p.placement_status = "Not Ready") ||
        decide (jr.p.placement_status = "In Progress")))).map
    (fun kg => query8Agg kg.1 kg.2))

/-- The CASE expression of query 9 (sql_queries.py:247-252): package tier of
a nullable package amount.  A NULL package matches no WHEN branch and falls
to the ELSE. -/
def packageCategory (pkg : Option ℤ) : String :=
  if sqlGeOpt pkg 1000000 then "High Package (10L+)"
  else if sqlGeOpt pkg 500000 then "Medium Package (5-10L)"
  else if sqlLtOpt pkg 500000 then "Entry Package (<5L)"
  else "Not Placed"

/-- SQL `AVG` over a nullable integer column: NULL values are ignored, NULL
when every value is NULL. -/
def sqlAvgOptInt (l : List (Option ℤ)) : Option ℚ :=
  match l.filterMap id with
  | [] => none
  | xs => some ((xs.sum : ℚ) / (xs.length : ℚ))

/-- An output row of `query_9_skills_gap_analysis`. -/
structure Query9Row where
  package_category : String
  student_count : ℕ
  avg_mock_interview : ℚ
  avg_communication : ℚ
  avg_teamwork : ℚ
  avg_presentation : ℚ
  avg_leadership : ℚ
  avg_critical_thinking : ℚ
  avg_problems_solved : Option ℚ
  avg_project_score : Option ℚ
  avg_rounds_cleared : ℚ
deriving DecidableEq, Repr

/-- Aggregation of one package tier of query 9. -/
def query9Agg (cat : String) (g : List JoinRow) : Query9Row :=
  { package_category := cat
    student_count := g.length
    avg_mock_interview := round1 (sqlAvgInt (g.map (fun jr => jr.p.mock_interview_score)))
    avg_communication := round1 (sqlAvgInt (g.map (fun jr => jr.ss.communication)))
    avg_teamwork := round1 (sqlAvgInt (g.map (fun jr => jr.ss.teamwork)))
    avg_presentation := round1 (sqlAvgInt (g.map (fun jr => jr.ss.presentation)))
    avg_leadership := round1 (sqlAvgInt (g.map (fun jr => jr.ss.leadership)))
    avg_critical_thinking := round1 (sqlAvgInt (g.map (fun jr => jr.ss.critical_thinking)))
    avg_problems_solved :=
      (sqlAvgOptInt (g.map (fun jr => jr.prog.map (·.problems_solved)))).map round1
    avg_project_score :=
      (sqlAvgOptInt (g.map (fun jr => jr.prog.map (·.latest_project_score)))).map round1
    avg_rounds_cleared := round1 (sqlAvgInt (g.map (fun jr => jr.p.interview_rounds_cleared))) }

/-- The ORDER BY expression of query 9 (sql_queries.py:269-274): the fixed
tier order High, Medium, Entry; any other category gets NULL. -/
def tierRank (cat : String) : Option ℤ :=
  if cat = "High Package (10L+)" then some 1
  else if cat = "Medium Package (5-10L)" then some 2
  else if cat = "Entry Package (<5L)" then some 3
  else none

/-- Boolean comparator of query 9's ORDER BY (ascending tier rank). -/
def q9Le (a b : Query9Row) : Bool :=
  optLeZ (tierRank a.package_category) (tierRank b.package_category)

/-- `PlacementInsights.query_9_skills_gap_analysis` (sql_queries.py:240-276):
placed students only, grouped by package tier, tiers in fixed order. -/
def query_9_skills_gap_analysis (db : DB) : List Query9Row :=
  orderBy q9Le ((sqlGroupBy (fun jr => packageCategory jr.p.placement_package)
      ((joinRows db).filter (fun jr => decide (jr.p.placement_status = "Placed")))).map
    (fun kg => query9Agg kg.1 kg.2))

/-- `StudentDataGenerator.placement_statuses` (data_generator.py:53). -/
def placement_statuses : List String := ["Ready", "Not Ready", "Placed", "In Progress"]

/-- `StudentDataGenerator.companies` (data_generator.py:46-51). -/
def companies : List String :=
  ["TCS", "Infosys", "Wipro", "Accenture", "IBM", "Cognizant",
   "Microsoft", "Amazon", "Google", "Flipkart", "Paytm",
   "Zomato", "Swiggy", "BYJU'S", "Unacademy", "PhonePe",
   "Razorpay", "Freshworks", "Zoho", "HCL Technologies"]

/-- The random draws `generate_placements_data` makes for one student.  The
library's random sampling is modelled by passing each drawn value as a
parameter: the status draw is an index into `placement_statuses` (what
`random.choices` returns regardless of its weights), the company draw an
index into `companies`, and the package and date draws the values
`random.randint` / `fake.date_between` would produce. -/
structure PlacementDraws where
  mock_interview_score : ℤ
  internships_completed : ℤ
  statusIdx : Fin placement_statuses.length
  companyIdx : Fin companies.length
  packageDraw : ℤ
  interview_rounds_cleared : ℤ
  dateDraw : String

/-- The tuple `generate_placements_data` appends for one student
(data_generator.py:238-289), before the AUTOINCREMENT id is assigned on
insert: company, package and date are filled only in the
`placement_status == "Placed"` branch and are `None` otherwise. -/
def generate_placement_entry (student_id : ℤ) (d : PlacementDraws) : PlacementRecord :=
  let status := placement_statuses.get d.statusIdx
  if status = "Placed" then
    { placement_id := 0
      student_id := student_id
      mock_interview_score := d.mock_interview_score
      internships_completed := d.internships_completed
      placement_status := status
      company_name := some (companies.get d.companyIdx)
      placement_package := some d.packageDraw
      interview_rounds_cleared := d.interview_rounds_cleared
      placement_date := some d.dateDraw }
  else
    { placement_id := 0
      student_id := student_id
      mock_interview_score := d.mock_interview_score
      internships_completed := d.internships_completed
      placement_status := status
      company_name := none
      placement_package := none
      interview_rounds_cleared := d.interview_rounds_cleared
      placement_date := none }

/-- `StudentDataGenerator.generate_placements_data` (data_generator.py:234-291):
one placement tuple per student id, from that student's draws. -/
def generate_placements_data (inputs : List (ℤ × PlacementDraws)) : List PlacementRecord :=
  inputs.map (fun sd => generate_placement_entry sd.1 sd.2)

/-- A value of the summary dict returned by `get_database_summary`. -/
inductive SVal where
  | int (z : ℤ)
  | rat (q : ℚ)
  | dist (d : List (String × ℕ))
deriving DecidableEq, Repr

/-- The placement-status distribution of `get_database_summary`
(`GROUP BY placement_status`). -/
def statusCounts (db : DB) : List (String × ℕ) :=
  (db.placements.map (·.placement_status)).dedup.map
    (fun st => (st, (db.placements.filter (fun p => decide (p.placement_status = st))).length))

/-- The body of the `try` block of `DatabaseManager.get_database_summary`
(database.py:102-133).  When the `programming` table is empty,
`AVG(problems_solved)` is NULL and Python's `round(None, 1)` raises a
`TypeError`, so the body fails. -/
def get_database_summary_core (db : DB) : Except String (List (String × SVal)) :=
  if db.programming.isEmpty then
    .error "TypeError: round of NoneType"
  else
    .ok [("total_students", .int db.students.length),
         ("programming_records", .int db.programming.length),
         ("placement_distribution", .dist (statusCounts db)),
         ("avg_problems_solved",
          .rat (round1 (sqlAvgInt (db.programming.map (·.problems_solved))))),
         ("avg_project_score",
          .rat (round1 (sqlAvgInt (db.programming.map (·.latest_project_score)))))]

/-- `SELECT DISTINCT col FROM t ORDER BY col` for a text column. -/
def distinctSorted (l : List String) : List String :=
  orderBy (fun a b => decide (a ≤ b)) l.dedup

/-- The body of the `try` block of `DatabaseManager.get_filter_options`
(database.py:258-286). -/
def get_filter_options_core (db : DB) : List (String × List String) :=
  [("course_batches", distinctSorted (db.students.map (·.course_batch))),
   ("cities", distinctSorted (db.students.map (·.city))),
   ("programming_languages", distinctSorted (db.programming.map (·.language))),
   ("placement_statuses", distinctSorted (db.placements.map (·.placement_status))),
   ("companies", distinctSorted (db.placements.filterMap (·.company_name)))]

/-- The access boundary of every `DatabaseManager` query method: the `try`
block needs a live connection (`conn : Except String DB`, `.error` when the
store is unreachable) and a query body that may itself fail; any failure is
caught, logged through `self.logger.error`, and replaced by the empty result.
The returned list of log lines models the logger calls. -/
def catchToEmpty {α : Type} (conn : Except String DB) (body : DB → Except String α)
    (empty : α) (logLine : String → String) : α × List String :=
  match conn with
  | .error e => (empty, [logLine e])
  | .ok db =>
      match body db with
      | .error e => (empty, [logLine e])
      | .ok a => (a, [])

/-- `DatabaseManager.get_eligible_students` as called by the presentation
layer: its `try`/`except` (database.py:157-249) converts any failure to an
empty DataFrame. -/
def get_eligible_students_boundary (conn : Except String DB) (c : Criteria) :
    List EligibleRow × List String :=
  catchToEmpty conn (fun db => .ok (get_eligible_students db c)) []
    (fun e => "Error getting eligible students: " ++ e)

/-- `DatabaseManager.execute_custom_query` (database.py:334-352): runs an
arbitrary query body against the connection, catching any failure of either. -/
def execute_custom_query {α : Type} (conn : Except String DB)
    (body : DB → Except String (List α)) : List α × List String :=
  catchToEmpty conn body [] (fun e => "Error executing custom query: " ++ e)

/-- Insight query 1 as the caller sees it: built on `execute_custom_query`. -/
def query_1_boundary (conn : Except String DB) (limit : ℕ) :
    List Query1Row × List String :=
  execute_custom_query conn (fun db => .ok (query_1_top_placement_ready_students db limit))

/-- Insight query 8 as the caller sees it: built on `execute_custom_query`. -/
def query_8_boundary (conn : Except String DB) : List Query8Row × List String :=
  execute_custom_query conn (fun db => .ok (query_8_students_needing_improvement db))

/-- Insight query 9 as the caller sees it: built on `execute_custom_query`. -/
def query_9_boundary (conn : Except String DB) : List Query9Row × List String :=
  execute_custom_query conn (fun db => .ok (query_9_skills_gap_analysis db))

/-- `DatabaseManager.get_database_summary` (database.py:95-137): empty dict on
any failure. -/
def get_database_summary (conn : Except String DB) :
    List (String × SVal) × List String :=
  catchToEmpty conn get_database_summary_core []
    (fun e => "Error getting database summary: " ++ e)

/-- `DatabaseManager.get_filter_options` (database.py:251-290): empty dict on
any failure. -/
def get_filter_options (conn : Except String DB) :
    List (String × List String) × List String :=
  catchToEmpty conn (fun db => .ok (get_filter_options_core db)) []
    (fun e => "Error getting filter options: " ++ e)

/-- A concrete three-student dataset used to instantiate the theorems:
student 1 is Ready with no programming record, student 2 is Placed with one
Python record, student 3 is In Progress with no programming record. -/
def exS1 : Student :=
  ⟨1, "Asha", 22, "F", "asha@email.com", "111", 2023, "DS_2023_A", "Mumbai", 2024⟩

/-- Second example student. -/
def exS2 : Student :=
  ⟨2, "Ravi", 23, "M", "ravi@email.com", "222", 2023, "DS_2023_B", "Pune", 2025⟩

/-- Third example student. -/
def exS3 : Student :=
  ⟨3, "Meera", 24, "F", "meera@email.com", "333", 2024, "DS_2024_A", "Delhi", 2025⟩

/-- Placement row of student 1 (Ready, no company/package). -/
def exP1 : PlacementRecord := ⟨1, 1, 70, 1, "Ready", none, none, 2, none⟩

/-- Placement row of student 2 (Placed at TCS for 400000). -/
def exP2 : PlacementRecord :=
  ⟨2, 2, 55, 0, "Placed", some "TCS", some 400000, 3, some "2025-01-15"⟩

/-- Placement row of student 3 (In Progress). -/
def exP3 : PlacementRecord := ⟨3, 3, 45, 0, "In Progress", none, none, 1, none⟩

/-- Soft-skills row of student 1: the spec's example scores
(80, 70, 90, 60, 75, 85). -/
def exSS1 : SoftSkillsRecord := ⟨1, 1, 80, 70, 90, 60, 75, 85⟩

/-- Soft-skills row of student 2. -/
def exSS2 : SoftSkillsRecord := ⟨2, 2, 60, 60, 60, 60, 60, 60⟩

/-- Soft-skills row of student 3. -/
def exSS3 : SoftSkillsRecord := ⟨3, 3, 50, 50, 50, 50, 50, 50⟩

/-- Programming row of student 2: Python, 40 problems solved, latest project
score 40. -/
def exProg2 : ProgrammingRecord := ⟨1, 2, "Python", 40, 5, 2, 1, 40⟩

/-- The example database. -/
def exDB : DB :=
  ⟨[exS1, exS2, exS3], [exProg2], [exSS1, exSS2, exSS3], [exP1, exP2, exP3]⟩

/-- Example draws for one generated placement: the status draw picks index 2
of `placement_statuses`, which is "Placed". -/
def exDraws : PlacementDraws :=
  { mock_interview_score := 80
    internships_completed := 1
    statusIdx := ⟨2, by decide⟩
    companyIdx := ⟨0, by decide⟩
    packageDraw := 500000
    interview_rounds_cleared := 3
    dateDraw := "2025-01-01" }

/-- Example draws whose status draw picks index 0, which is "Ready". -/
def exDrawsReady : PlacementDraws :=
  { mock_interview_score := 60
    internships_completed := 0
    statusIdx := ⟨0, by decide⟩
    companyIdx := ⟨1, by decide⟩
    packageDraw := 300000
    interview_rounds_cleared := 1
    dateDraw := "2025-02-01" }

/-- Well-formedness of the dataset, as the spec's §3 invariant states it:
student ids are unique and every student has exactly one placement row and
exactly one soft-skills row. -/
def WellFormed (db : DB) : Prop :=
  (db.students.map (·.student_id)).Nodup ∧
  (∀ s ∈ db.students,
    (db.placements.filter (fun p => decide (p.student_id = s.student_id))).length = 1) ∧
  (∀ s ∈ db.students,
    (db.soft_skills.filter (fun ss => decide (ss.student_id = s.student_id))).length = 1)

/-- The generator's placement invariant over a whole database: company and
package are present exactly on Placed rows. -/
def PlacedInvariant (db : DB) : Prop :=
  ∀ p ∈ db.placements,
    (p.placement_status = "Placed" ↔ p.company_name.isSome = true) ∧
    (p.placement_status = "Placed" ↔ p.placement_package.isSome = true)

/-- Membership of a programming row in a student's LEFT JOIN slice. -/
lemma mem_progsOf {db : DB} {sid : ℤ} {r : ProgrammingRecord} :
    r ∈ progsOf db sid ↔ r ∈ db.programming ∧ r.student_id = sid := by
  simp [progsOf]

/-- Membership in the LEFT JOIN side: `none` appears exactly when the student
has no programming row, `some r` exactly for the student's programming rows. -/
lemma mem_leftJoinProgs {db : DB} {sid : ℤ} {o : Option ProgrammingRecord} :
    o ∈ leftJoinProgs db sid ↔
      (o = none ∧ progsOf db sid = []) ∨
      (∃ r, o = some r ∧ r ∈ progsOf db sid) := by
  unfold leftJoinProgs
  cases hpr : progsOf db sid with
  | nil => simp
  | cons a l =>
      simp only [List.mem_map, List.mem_cons]
      constructor
      · rintro ⟨r, hr, rfl⟩
        exact Or.inr ⟨r, rfl, by simp [hr]⟩
      · rintro (⟨rfl, h⟩ | ⟨r, rfl, hr⟩)
        · cases h
        · exact ⟨r, by simpa using hr, rfl⟩

/-- Membership in the joined relation, field by field. -/
lemma mem_joinRows {db : DB} {jr : JoinRow} :
    jr ∈ joinRows db ↔
      jr.s ∈ db.students ∧
      jr.p ∈ db.placements ∧ jr.p.student_id = jr.s.student_id ∧
      jr.ss ∈ db.soft_skills ∧ jr.ss.student_id = jr.s.student_id ∧
      jr.prog ∈ leftJoinProgs db jr.s.student_id := by
  constructor
  · intro h
    simp only [joinRows, List.mem_flatMap, List.mem_filter, List.mem_map,
      decide_eq_true_eq] at h
    obtain ⟨s, hs, p, ⟨hp, hps⟩, ss, ⟨hss, hsss⟩, o, ho, rfl⟩ := h
    exact ⟨hs, hp, hps, hss, hsss, ho⟩
  · rintro ⟨hs, hp, hps, hss, hsss, ho⟩
    simp only [joinRows, List.mem_flatMap, List.mem_filter, List.mem_map,
      decide_eq_true_eq]
    exact ⟨jr.s, hs, jr.p, ⟨hp, hps⟩, jr.ss, ⟨hss, hsss⟩, jr.prog, ho, rfl⟩

/-- Membership in a GROUP BY result: the key is a key of some row, and the
group is exactly the rows with that key. -/
lemma mem_sqlGroupBy {κ : Type} [DecidableEq κ] {key : JoinRow → κ}
    {rows : List JoinRow} {kg : κ × List JoinRow} :
    kg ∈ sqlGroupBy key rows ↔
      (∃ r ∈ rows, key r = kg.1) ∧
      kg.2 = rows.filter (fun r => decide (key r = kg.1)) := by
  obtain ⟨k, g⟩ := kg
  simp only [sqlGroupBy, List.mem_map, List.mem_dedup, Prod.mk.injEq]
  constructor
  · rintro ⟨k0, hk0, rfl, rfl⟩
    simpa using hk0
  · rintro ⟨hex, hg⟩
    exact ⟨k, by simpa using hex, rfl, hg.symm⟩

/-- Every member of a group is a row with the group's key. -/
lemma of_mem_group {κ : Type} [DecidableEq κ] {key : JoinRow → κ}
    {rows : List JoinRow} {kg : κ × List JoinRow}
    (hkg : kg ∈ sqlGroupBy key rows) {jr : JoinRow} (hjr : jr ∈ kg.2) :
    jr ∈ rows ∧ key jr = kg.1 := by
  obtain ⟨-, hg⟩ := mem_sqlGroupBy.mp hkg
  rw [hg] at hjr
  simpa using List.mem_filter.mp hjr

/-- Every group is nonempty. -/
lemma group_nonempty {κ : Type} [DecidableEq κ] {key : JoinRow → κ}
    {rows : List JoinRow} {kg : κ × List JoinRow}
    (hkg : kg ∈ sqlGroupBy key rows) : ∃ jr, jr ∈ kg.2 := by
  obtain ⟨⟨r, hr, hkey⟩, hg⟩ := mem_sqlGroupBy.mp hkg
  exact ⟨r, by rw [hg]; simpa using ⟨hr, hkey⟩⟩

/-- A row's key gives a member of the GROUP BY result. -/
lemma key_mem_sqlGroupBy {κ : Type} [DecidableEq κ] {key : JoinRow → κ}
    {rows : List JoinRow} {r : JoinRow} (hr : r ∈ rows) :
    (key r, rows.filter (fun x => decide (key x = key r))) ∈ sqlGroupBy key rows :=
  mem_sqlGroupBy.mpr ⟨⟨r, hr, rfl⟩, rfl⟩

/-- Membership in an insertion. -/
lemma mem_insertBy {ρ : Type} {le : ρ → ρ → Bool} {a x : ρ} {l : List ρ} :
    x ∈ insertBy le a l ↔ x = a ∨ x ∈ l := by
  induction l with
  | nil => simp [insertBy]
  | cons b t ih =>
      by_cases h : le a b = true
      · simp [insertBy, h]
      · simp only [insertBy, if_neg h, List.mem_cons, ih]
        tauto

/-- The insertion sort permutes nothing in or out. -/
lemma mem_orderBy {ρ : Type} {le : ρ → ρ → Bool} {x : ρ} {l : List ρ} :
    x ∈ orderBy le l ↔ x ∈ l := by
  induction l with
  | nil => simp [orderBy]
  | cons a t ih => simp [orderBy, mem_insertBy, ih]

/-- Inserting into a sorted list keeps it sorted, for a total transitive
boolean comparator. -/
lemma pairwise_insertBy {ρ : Type} {le : ρ → ρ → Bool}
    (htot : ∀ x y, le x y = true ∨ le y x = true)
    (htrans : ∀ x y z, le x y = true → le y z = true → le x z = true)
    {a : ρ} {l : List ρ} (hl : List.Pairwise (fun x y => le x y = true) l) :
    List.Pairwise (fun x y => le x y = true) (insertBy le a l) := by
  induction l with
  | nil => simp [insertBy]
  | cons b t ih =>
      rcases List.pairwise_cons.mp hl with ⟨hb, ht⟩
      by_cases h : le a b = true
      · rw [insertBy, if_pos h]
        exact List.pairwise_cons.mpr
          ⟨fun x hx => by
            rcases List.mem_cons.mp hx with rfl | hx
            · exact h
            · exact htrans a b x h (hb x hx), hl⟩
      · rw [insertBy, if_neg h]
        have hba : le b a = true := (htot a b).resolve_left h
        refine List.pairwise_cons.mpr ⟨fun x hx => ?_, ih ht⟩
        rcases mem_insertBy.mp hx with rfl | hx
        · exact hba
        · exact hb x hx

/-- The insertion sort output is pairwise ordered by its comparator. -/
lemma pairwise_orderBy {ρ : Type} {le : ρ → ρ → Bool}
    (htot : ∀ x y, le x y = true ∨ le y x = true)
    (htrans : ∀ x y z, le x y = true → le y z = true → le x z = true)
    (l : List ρ) :
    List.Pairwise (fun x y => le x y = true) (orderBy le l) := by
  induction l with
  | nil => simp [orderBy]
  | cons a t ih => exact pairwise_insertBy htot htrans ih

/-- The insertion sort output is pairwise ordered by any key that the
comparator realises. -/
lemma pairwise_orderBy_key {ρ κ : Type} [LinearOrder κ] {le : ρ → ρ → Bool}
    {f : ρ → κ} (hiff : ∀ a b, le a b = true ↔ f a ≤ f b) (l : List ρ) :
    List.Pairwise (fun a b => f a ≤ f b) (orderBy le l) := by
  have h := pairwise_orderBy
    (fun x y => by
      rcases le_total (f x) (f y) with h | h
      · exact Or.inl ((hiff x y).mpr h)
      · exact Or.inr ((hiff y x).mpr h))
    (fun x y z hxy hyz =>
      (hiff x z).mpr (le_trans ((hiff x y).mp hxy) ((hiff y z).mp hyz)))
    l
  exact h.imp (fun hab => (hiff _ _).mp hab)

/-- Membership in the output of `get_eligible_students`: every output row is
the aggregation of some group, and conversely. -/
lemma mem_get_eligible_students {db : DB} {c : Criteria} {row : EligibleRow} :
    row ∈ get_eligible_students db c ↔
      ∃ kg ∈ sqlGroupBy eKey ((joinRows db).filter (rowPasses c)),
        row = eligAgg kg.1 kg.2 := by
  simp only [get_eligible_students, mem_orderBy, List.mem_dedup, List.mem_map]
  constructor
  · rintro ⟨kg, hkg, rfl⟩
    exact ⟨kg, hkg, rfl⟩
  · rintro ⟨kg, hkg, rfl⟩
    exact ⟨kg, hkg, rfl⟩

/-- Membership in the pre-LIMIT output of query 1. -/
lemma mem_query_1_rows {db : DB} {row : Query1Row} :
    row ∈ query_1_rows db ↔
      ∃ kg ∈ sqlGroupBy k18 ((joinRows db).filter
          (fun jr => decide (jr.p.placement_status = "Ready") ||
            decide (jr.p.placement_status = "Placed"))),
        row = query1Agg kg.1 kg.2 := by
  simp only [query_1_rows, mem_orderBy, List.mem_map]
  constructor
  · rintro ⟨kg, hkg, rfl⟩
    exact ⟨kg, hkg, rfl⟩
  · rintro ⟨kg, hkg, rfl⟩
    exact ⟨kg, hkg, rfl⟩

/-- Membership in the output of query 8. -/
lemma mem_query_8 {db : DB} {row : Query8Row} :
    row ∈ query_8_students_needing_improvement db ↔
      ∃ kg ∈ sqlGroupBy k18 ((joinRows db).filter
          (fun jr => decide (jr.p.placement_status = "Not Ready") ||
            decide (jr.p.placement_status = "In Progress"))),
        row = query8Agg kg.1 kg.2 := by
  simp only [query_8_students_needing_improvement, mem_orderBy, List.mem_map]
  constructor
  · rintro ⟨kg, hkg, rfl⟩
    exact ⟨kg, hkg, rfl⟩
  · rintro ⟨kg, hkg, rfl⟩
    exact ⟨kg, hkg, rfl⟩

/-- Membership in the output of query 9. -/
lemma mem_query_9 {db : DB} {row : Query9Row} :
    row ∈ query_9_skills_gap_analysis db ↔
      ∃ kg ∈ sqlGroupBy (fun jr => packageCategory jr.p.placement_package)
          ((joinRows db).filter (fun jr => decide (jr.p.placement_status = "Placed"))),
        row = query9Agg kg.1 kg.2 := by
  simp only [query_9_skills_gap_analysis, mem_orderBy, List.mem_map]
  constructor
  · rintro ⟨kg, hkg, rfl⟩
    exact ⟨kg, hkg, rfl⟩
  · rintro ⟨kg, hkg, rfl⟩
    exact ⟨kg, hkg, rfl⟩

/-- The SQL average of a constant nonempty list is the constant. -/
lemma sqlAvgInt_const {l : List ℤ} {v : ℤ} (hne : l ≠ [])
    (hc : ∀ x ∈ l, x = v) : sqlAvgInt l = (v : ℚ) := by
  have hsum : l.sum = v * l.length := by
    induction l with
    | nil => simp
    | cons a t ih =>
        have ha : a = v := hc a (by simp)
        have ht : ∀ x ∈ t, x = v := fun x hx => hc x (by simp [hx])
        rcases t with _ | ⟨b, t'⟩
        · simp [ha]
        · have := ih (by simp) ht
          simp only [List.sum_cons, this, ha, List.length_cons]
          push_cast
          ring
  have hlen : (l.length : ℚ) ≠ 0 :=
    Nat.cast_ne_zero.mpr (fun h0 => hne (List.length_eq_zero.mp h0))
  rw [sqlAvgInt, hsum]
  push_cast
  field_simp

/-- Under well-formedness, two join rows of the same student carry the same
placement row and the same soft-skills row. -/
lemma joinRow_same_student {db : DB} (hwf : WellFormed db) {jr jr' : JoinRow}
    (h : jr ∈ joinRows db) (h' : jr' ∈ joinRows db)
    (hsid : jr.s.student_id = jr'.s.student_id) :
    jr.s = jr'.s ∧ jr.p = jr'.p ∧ jr.ss = jr'.ss := by
  obtain ⟨hs, hp, hps, hss, hsss, -⟩ := mem_joinRows.mp h
  obtain ⟨hs', hp', hps', hss', hsss', -⟩ := mem_joinRows.mp h'
  obtain ⟨hnodup, hone_p, hone_ss⟩ := hwf
  have hseq : jr.s = jr'.s :=
    List.inj_on_of_nodup_map hnodup hs hs' hsid
  refine ⟨hseq, ?_, ?_⟩
  · obtain ⟨p0, hp0⟩ := List.length_eq_one.mp (hone_p jr.s hs)
    have m1 : jr.p ∈ db.placements.filter
        (fun p => decide (p.student_id = jr.s.student_id)) := by
      simp [List.mem_filter, hp, hps]
    have m2 : jr'.p ∈ db.placements.filter
        (fun p => decide (p.student_id = jr.s.student_id)) := by
      simp [List.mem_filter, hp', hps', hsid]
    rw [hp0] at m1 m2
    simp only [List.mem_singleton] at m1 m2
    rw [m1, m2]
  · obtain ⟨ss0, hss0⟩ := List.length_eq_one.mp (hone_ss jr.s hs)
    have m1 : jr.ss ∈ db.soft_skills.filter
        (fun x => decide (x.student_id = jr.s.student_id)) := by
      simp [List.mem_filter, hss, hsss]
    have m2 : jr'.ss ∈ db.soft_skills.filter
        (fun x => decide (x.student_id = jr.s.student_id)) := by
      simp [List.mem_filter, hss', hsss', hsid]
    rw [hss0] at m1 m2
    simp only [List.mem_singleton] at m1 m2
    rw [m1, m2]

/-- The function `nullableKey` is injective. -/
lemma nullableKey_inj {α : Type} {x y : Option α} :
    nullableKey x = nullableKey y ↔ x = y := by
  cases x <;> cases y <;>
    simp [nullableKey, WithBot.coe_eq_coe, WithBot.coe_ne_bot,
      (WithBot.coe_ne_bot).symm, eq_comm (a := (⊥ : WithBot α))]

/-- The boolean `<` on nullable integers is the `WithBot` order. -/
lemma optLtZ_iff {x y : Option ℤ} :
    optLtZ x y = true ↔ nullableKey x < nullableKey y := by
  cases x <;> cases y <;>
    simp [optLtZ, nullableKey, WithBot.bot_lt_coe, WithBot.coe_lt_coe,
      not_lt_bot]

/-- The boolean `≤` on nullable integers is the `WithBot` order. -/
lemma optLeZ_iff {x y : Option ℤ} :
    optLeZ x y = true ↔ nullableKey x ≤ nullableKey y := by
  cases x <;> cases y <;>
    simp [optLeZ, nullableKey, bot_le, WithBot.coe_le_coe, WithBot.le_bot_iff,
      WithBot.coe_ne_bot]

/-- The boolean `≤` on nullable rationals is the `WithBot` order. -/
lemma optLeQ_iff {x y : Option ℚ} :
    optLeQ x y = true ↔ nullableKey x ≤ nullableKey y := by
  cases x <;> cases y <;>
    simp [optLeQ, nullableKey, bot_le, WithBot.coe_le_coe, WithBot.le_bot_iff,
      WithBot.coe_ne_bot]

/-- The boolean comparator of `get_eligible_students` realises the descending
lexicographic key order. -/
lemma eligLe_iff {a b : EligibleRow} :
    eligLe a b = true ↔ eOrdKey b ≤ eOrdKey a := by
  rw [eligLe, eOrdKey, eOrdKey]
  simp only [Bool.or_eq_true, Bool.and_eq_true, decide_eq_true_eq, optLtZ_iff,
    Prod.Lex.le_iff, nullableKey_inj]

/-- Criteria that assemble the same WHERE clause produce the same result. -/
lemma get_eligible_students_congr {c1 c2 : Criteria}
    (h : rowPasses c1 = rowPasses c2) (db : DB) :
    get_eligible_students db c1 = get_eligible_students db c2 := by
  unfold get_eligible_students
  rw [h]

/-- A student with a placement row and a soft-skills row produces at least one
join row. -/
lemma exists_joinRow {db : DB} {s : Student} {p : PlacementRecord}
    {ss : SoftSkillsRecord} (hs : s ∈ db.students)
    (hp : p ∈ db.placements) (hps : p.student_id = s.student_id)
    (hss : ss ∈ db.soft_skills) (hsss : ss.student_id = s.student_id) :
    ∃ o, (⟨s, p, ss, o⟩ : JoinRow) ∈ joinRows db := by
  cases hpr : progsOf db s.student_id with
  | nil =>
      exact ⟨none, mem_joinRows.mpr ⟨hs, hp, hps, hss, hsss,
        mem_leftJoinProgs.mpr (Or.inl ⟨rfl, hpr⟩)⟩⟩
  | cons r t =>
      exact ⟨some r, mem_joinRows.mpr ⟨hs, hp, hps, hss, hsss,
        mem_leftJoinProgs.mpr (Or.inr ⟨r, rfl, by rw [hpr]; simp⟩)⟩⟩

/-- Under well-formedness, every student has a placement row and a soft-skills
row, so some join row carries the student. -/
lemma wf_joinRow {db : DB} (hwf : WellFormed db) {s : Student}
    (hs : s ∈ db.students) :
    ∃ p ∈ db.placements, p.student_id = s.student_id ∧
      ∃ ss ∈ db.soft_skills, ss.student_id = s.student_id ∧
        ∃ o, (⟨s, p, ss, o⟩ : JoinRow) ∈ joinRows db := by
  obtain ⟨-, hone_p, hone_ss⟩ := hwf
  obtain ⟨p, hpfil⟩ := List.length_eq_one.mp (hone_p s hs)
  obtain ⟨ss, hssfil⟩ := List.length_eq_one.mp (hone_ss s hs)
  have hpmem : p ∈ db.placements.filter
      (fun x => decide (x.student_id = s.student_id)) := by
    rw [hpfil]; simp
  have hssmem : ss ∈ db.soft_skills.filter
      (fun x => decide (x.student_id = s.student_id)) := by
    rw [hssfil]; simp
  obtain ⟨hp, hps⟩ := List.mem_filter.mp hpmem
  obtain ⟨hss2, hsss⟩ := List.mem_filter.mp hssmem
  simp only [decide_eq_true_eq] at hps hsss
  exact ⟨p, hp, hps, ss, hss2, hsss, exists_joinRow hs hp hps hss2 hsss⟩

/-- C2: for every database and every criteria mapping, the rows returned by
`get_eligible_students` are ordered by soft-skills average descending, then
max problems solved descending (NULL last), then mock interview score
descending; the three keys are compared in exactly this lexicographic
tie-break order, and the embedding is a pure function of its inputs, so the
order is deterministic. -/
theorem getEligible_ordered_by_avg_maxProblems_interview (db : DB) (c : Criteria) :
    List.Pairwise (fun a b : EligibleRow =>
      b.avg_soft_skills < a.avg_soft_skills ∨
        (b.avg_soft_skills = a.avg_soft_skills ∧
          (nullableKey b.max_problems_solved < nullableKey a.max_problems_solved ∨
            (b.max_problems_solved = a.max_problems_solved ∧
              b.mock_interview_score ≤ a.mock_interview_score))))
      (get_eligible_students db c) := by
  have h := pairwise_orderBy_key
    (f := fun r : EligibleRow => OrderDual.toDual (eOrdKey r))
    (fun a b => by
      rw [eligLe_iff]
      exact (OrderDual.toDual_le_toDual (a := eOrdKey a) (b := eOrdKey b)).symm)
    (((sqlGroupBy eKey ((joinRows db).filter (rowPasses c))).map
      (fun kg => eligAgg kg.1 kg.2)).dedup)
  refine List.Pairwise.imp ?_ h
  intro a b hab
  have hle : eOrdKey b ≤ eOrdKey a := OrderDual.toDual_le_toDual.mp hab
  rw [eOrdKey, eOrdKey, Prod.Lex.le_iff] at hle
  rcases hle with hlt | ⟨heq, hrest⟩
  · exact Or.inl hlt
  · rw [Prod.Lex.le_iff] at hrest
    rcases hrest with hlt2 | ⟨heq2, hle3⟩
    · exact Or.inr ⟨heq, Or.inl hlt2⟩
    · exact Or.inr ⟨heq, Or.inr ⟨nullableKey_inj.mp heq2, hle3⟩⟩

/-- C3: every query operation catches a connectivity or query-execution
failure at the access boundary, logs it, and returns the empty result (empty
list standing for the empty DataFrame or empty dict) instead of propagating a
fault: shown for `get_eligible_students`, `execute_custom_query` with a
failing connection and with a failing query body, the insight queries built on
`execute_custom_query` (queries 1, 8 and 9), `get_database_summary` (both on a
dead connection and on the query-execution failure that an empty `programming`
table causes in `round(None, 1)`), and `get_filter_options`. -/
theorem query_failures_caught_logged_empty :
    (∀ (e : String) (c : Criteria),
      get_eligible_students_boundary (.error e) c =
        ([], ["Error getting eligible students: " ++ e])) ∧
    (∀ (α : Type) (e : String) (body : DB → Except String (List α)),
      execute_custom_query (.error e) body =
        ([], ["Error executing custom query: " ++ e])) ∧
    (∀ (α : Type) (db : DB) (e : String),
      execute_custom_query (Except.ok db) (fun _ => Except.error (α := List α) e) =
        ([], ["Error executing custom query: " ++ e])) ∧
    (∀ (e : String) (limit : ℕ),
      query_1_boundary (.error e) limit =
        ([], ["Error executing custom query: " ++ e])) ∧
    (∀ e : String, query_8_boundary (.error e) =
        ([], ["Error executing custom query: " ++ e])) ∧
    (∀ e : String, query_9_boundary (.error e) =
        ([], ["Error executing custom query: " ++ e])) ∧
    (∀ e : String, get_database_summary (.error e) =
        ([], ["Error getting database summary: " ++ e])) ∧
    (∀ (sts : List Student) (ssl : List SoftSkillsRecord) (pls : List PlacementRecord),
      get_database_summary (Except.ok ⟨sts, [], ssl, pls⟩) =
        ([], ["Error getting database summary: " ++ "TypeError: round of NoneType"])) ∧
    (∀ e : String, get_filter_options (.error e) =
        ([], ["Error getting filter options: " ++ e])) :=
  ⟨fun _ _ => rfl, fun _ _ _ => rfl, fun _ _ _ => rfl, fun _ _ => rfl,
    fun _ => rfl, fun _ => rfl, fun _ => rfl, fun _ _ _ => rfl, fun _ => rfl⟩

/-- C9 counterexample: supplying `placement_status` as the single string `""`
is not the same as supplying the one-element list `[""]` — Python truthiness
makes the empty string drop the condition (every student returned) while the
one-element list filters on `IN ('')` (no student returned). -/
theorem statusString_vs_singleton_list_differ :
    get_eligible_students exDB { placement_status := some (.str "") } ≠
      get_eligible_students exDB { placement_status := some (.list [""]) } := by
  intro h
  have hjr : (⟨exS1, exP1, exSS1, none⟩ : JoinRow) ∈
      (joinRows exDB).filter
        (rowPasses { placement_status := some (.str "") }) := by decide
  have hkg : (eKey ⟨exS1, exP1, exSS1, none⟩,
      ((joinRows exDB).filter (rowPasses { placement_status := some (.str "") })).filter
        (fun x => decide (eKey x = eKey ⟨exS1, exP1, exSS1, none⟩))) ∈
      sqlGroupBy eKey ((joinRows exDB).filter
        (rowPasses { placement_status := some (.str "") })) :=
    key_mem_sqlGroupBy hjr
  have hrow := mem_get_eligible_students.mpr ⟨_, hkg, rfl⟩
  rw [h] at hrow
  have hempty : get_eligible_students exDB
      { placement_status := some (.list [""]) } = [] := rfl
  rw [hempty] at hrow
  exact absurd hrow (List.not_mem_nil _)

/-- C9 amended: for every database, every criteria mapping and every
NON-EMPTY string `s`, supplying `placement_status` as the single string `s`
returns exactly the same result as supplying the one-element list `[s]` (the
string is normalised to a one-element list); for the empty string the two
differ, because Python truthiness treats `""` as an absent criterion but
`[""]` as a real filter. -/
theorem statusString_treated_as_singleton_list (db : DB) (c : Criteria)
    (s : String) (h : s ≠ "") :
    get_eligible_students db { c with placement_status := some (.str s) } =
      get_eligible_students db { c with placement_status := some (.list [s]) } := by
  apply get_eligible_students_congr
  funext jr
  simp [rowPasses, truthyStatus, statusList, h]

/-- Witness for the amended C9 at a concrete status string. -/
theorem statusString_singleton_witness :
    "Ready" ≠ "" ∧
      get_eligible_students exDB { placement_status := some (.str "Ready") } =
        get_eligible_students exDB { placement_status := some (.list ["Ready"]) } :=
  ⟨by decide, statusString_treated_as_singleton_list exDB {} "Ready" (by decide)⟩

/-- C10: a criterion supplied with a Python-falsy value (0 for a numeric
minimum, an empty string for language/batch/city, an empty list for the
status set) contributes no filter condition, so the result is exactly the
result with the criterion absent; in particular, with
`min_problems_solved = 0` a student with no programming records (whose NULL
metrics would fail a literal `>= 0` comparison) is still returned, shown for
student 1 of the example database. -/
theorem falsy_criteria_impose_no_constraint :
    (∀ (db : DB) (c : Criteria), get_eligible_students db { c with min_problems_solved := some 0 } =
      get_eligible_students db { c with min_problems_solved := none }) ∧
    (∀ (db : DB) (c : Criteria), get_eligible_students db { c with min_project_score := some 0 } =
      get_eligible_students db { c with min_project_score := none }) ∧
    (∀ (db : DB) (c : Criteria), get_eligible_students db { c with min_soft_skills_avg := some 0 } =
      get_eligible_students db { c with min_soft_skills_avg := none }) ∧
    (∀ (db : DB) (c : Criteria), get_eligible_students db { c with min_mock_interview := some 0 } =
      get_eligible_students db { c with min_mock_interview := none }) ∧
    (∀ (db : DB) (c : Criteria), get_eligible_students db { c with min_internships := some 0 } =
      get_eligible_students db { c with min_internships := none }) ∧
    (∀ (db : DB) (c : Criteria), get_eligible_students db { c with programming_language := some "" } =
      get_eligible_students db { c with programming_language := none }) ∧
    (∀ (db : DB) (c : Criteria), get_eligible_students db { c with course_batch := some "" } =
      get_eligible_students db { c with course_batch := none }) ∧
    (∀ (db : DB) (c : Criteria), get_eligible_students db { c with city := some "" } =
      get_eligible_students db { c with city := none }) ∧
    (∀ (db : DB) (c : Criteria), get_eligible_students db { c with placement_status := some (.list []) } =
      get_eligible_students db { c with placement_status := none }) ∧
    (1 : ℤ) ∈ (get_eligible_students exDB
      { min_problems_solved := some 0 }).map (·.student_id) := by
  refine ⟨?_, ?_, ?_, ?_, ?_, ?_, ?_, ?_, ?_, ?_⟩
  · intro db c
    exact get_eligible_students_congr
      (funext fun jr => by simp [rowPasses, truthyInt]) db
  · intro db c
    exact get_eligible_students_congr
      (funext fun jr => by simp [rowPasses, truthyInt]) db
  · intro db c
    exact get_eligible_students_congr
      (funext fun jr => by simp [rowPasses, truthyRat]) db
  · intro db c
    exact get_eligible_students_congr
      (funext fun jr => by simp [rowPasses, truthyInt]) db
  · intro db c
    exact get_eligible_students_congr
      (funext fun jr => by simp [rowPasses, truthyInt]) db
  · intro db c
    exact get_eligible_students_congr
      (funext fun jr => by simp [rowPasses, truthyStr]) db
  · intro db c
    exact get_eligible_students_congr
      (funext fun jr => by simp [rowPasses, truthyStr]) db
  · intro db c
    exact get_eligible_students_congr
      (funext fun jr => by simp [rowPasses, truthyStr]) db
  · intro db c
    exact get_eligible_students_congr
      (funext fun jr => by simp [rowPasses, truthyStatus]) db
  · have hjr : (⟨exS1, exP1, exSS1, none⟩ : JoinRow) ∈
        (joinRows exDB).filter
          (rowPasses { min_problems_solved := some 0 }) := by decide
    have hkg : (eKey ⟨exS1, exP1, exSS1, none⟩,
        ((joinRows exDB).filter (rowPasses { min_problems_solved := some 0 })).filter
          (fun x => decide (eKey x = eKey ⟨exS1, exP1, exSS1, none⟩))) ∈
        sqlGroupBy eKey ((joinRows exDB).filter
          (rowPasses { min_problems_solved := some 0 })) :=
      key_mem_sqlGroupBy hjr
    exact List.mem_map.mpr
      ⟨_, mem_get_eligible_students.mpr ⟨_, hkg, rfl⟩, rfl⟩

/-- C1 (evaluation at the failing input): the `min_project_score` criterion
never contributes a filter condition — for every database and criteria
mapping its value is irrelevant to `get_eligible_students` — and on the
example database with `min_project_score = 60`, student 2, whose only latest
project score is 40, is returned anyway. -/
theorem min_project_score_criterion_ignored :
    (∀ (db : DB) (c : Criteria) (v : Option ℤ), get_eligible_students db { c with min_project_score := v } =
      get_eligible_students db { c with min_project_score := none }) ∧
    (∃ row ∈ get_eligible_students exDB { min_project_score := some 60 },
      row.student_id = 2 ∧ row.best_project_score = some 40) := by
  constructor
  · intro db c v
    exact get_eligible_students_congr
      (funext fun jr => by simp [rowPasses]) db
  · have hjr : (⟨exS2, exP2, exSS2, some exProg2⟩ : JoinRow) ∈
        (joinRows exDB).filter
          (rowPasses { min_project_score := some 60 }) := by decide
    have hkg : (eKey ⟨exS2, exP2, exSS2, some exProg2⟩,
        ((joinRows exDB).filter (rowPasses { min_project_score := some 60 })).filter
          (fun x => decide (eKey x = eKey ⟨exS2, exP2, exSS2, some exProg2⟩))) ∈
        sqlGroupBy eKey ((joinRows exDB).filter
          (rowPasses { min_project_score := some 60 })) :=
      key_mem_sqlGroupBy hjr
    exact ⟨_, mem_get_eligible_students.mpr ⟨_, hkg, rfl⟩, by decide, by decide⟩

/-- C7: a generated placement record has a company name iff its status is
"Placed", and a package amount iff its status is "Placed" — for every list of
students and random draws the generator's output satisfies the invariant —
and the invariant is preserved by the read-only queries: every row that
`get_eligible_students` returns from a database satisfying the invariant
satisfies it too. -/
theorem placed_iff_company_and_package :
    (∀ inputs : List (ℤ × PlacementDraws), ∀ rec ∈ generate_placements_data inputs,
      (rec.placement_status = "Placed" ↔ rec.company_name.isSome = true) ∧
      (rec.placement_status = "Placed" ↔ rec.placement_package.isSome = true)) ∧
    (∀ (db : DB) (c : Criteria), PlacedInvariant db →
      ∀ row ∈ get_eligible_students db c,
        (row.placement_status = "Placed" ↔ row.company_name.isSome = true) ∧
        (row.placement_status = "Placed" ↔ row.placement_package.isSome = true)) := by
  constructor
  · intro inputs rec hrec
    obtain ⟨⟨sid, d⟩, -, rfl⟩ := List.mem_map.mp hrec
    simp only [generate_placement_entry]
    split
    · next h => rw [List.get_eq_getElem] at h; simp [h]
    · next h => rw [List.get_eq_getElem] at h; simp [h]
  · intro db c hinv row hrow
    obtain ⟨kg, hkg, rfl⟩ := mem_get_eligible_students.mp hrow
    obtain ⟨jr, hjr⟩ := group_nonempty hkg
    obtain ⟨hjrkept, hjrkey⟩ := of_mem_group hkg hjr
    have hjoin : jr ∈ joinRows db := (List.mem_filter.mp hjrkept).1
    obtain ⟨-, hp, -, -, -, -⟩ := mem_joinRows.mp hjoin
    have hiff := hinv jr.p hp
    have hst : (eligAgg kg.1 kg.2).placement_status = jr.p.placement_status := by
      rw [← hjrkey]; rfl
    have hco : (eligAgg kg.1 kg.2).company_name = jr.p.company_name := by
      rw [← hjrkey]; rfl
    have hpk : (eligAgg kg.1 kg.2).placement_package = jr.p.placement_package := by
      rw [← hjrkey]; rfl
    rw [hst, hco, hpk]
    exact hiff

/-- Witness for C7 at one concrete generated record (status draw "Placed"). -/
theorem placed_iff_company_and_package_witness :
    ((generate_placement_entry 5 exDraws).placement_status = "Placed" ↔
      (generate_placement_entry 5 exDraws).company_name.isSome = true) ∧
    ((generate_placement_entry 5 exDraws).placement_status = "Placed" ↔
      (generate_placement_entry 5 exDraws).placement_package.isSome = true) :=
  placed_iff_company_and_package.1 [(5, exDraws)] _
    (by simp [generate_placements_data])

/-- C6: the skills-gap query considers placed students only and buckets each
by package amount into exactly one tier — for every package amount `v`,
`v ≥ 1,000,000` iff the tier is "High Package (10L+)",
`500,000 ≤ v < 1,000,000` iff it is "Medium Package (5-10L)", and
`v < 500,000` iff it is "Entry Package (<5L)"; in particular 1,000,000 is
High, 999,999 is Medium and 499,999 is Entry — every row of the result (on a
database satisfying the placement invariant) carries one of the three tiers,
and the rows appear in the fixed tier order High, Medium, Entry. -/
theorem skills_gap_package_tiers :
    (∀ v : ℤ,
      ((1000000 ≤ v) ↔ packageCategory (some v) = "High Package (10L+)") ∧
      ((500000 ≤ v ∧ v < 1000000) ↔ packageCategory (some v) = "Medium Package (5-10L)") ∧
      ((v < 500000) ↔ packageCategory (some v) = "Entry Package (<5L)")) ∧
    packageCategory (some 1000000) = "High Package (10L+)" ∧
    packageCategory (some 999999) = "Medium Package (5-10L)" ∧
    packageCategory (some 499999) = "Entry Package (<5L)" ∧
    (∀ db : DB, PlacedInvariant db → ∀ row ∈ query_9_skills_gap_analysis db,
      row.package_category = "High Package (10L+)" ∨
      row.package_category = "Medium Package (5-10L)" ∨
      row.package_category = "Entry Package (<5L)") ∧
    (∀ db : DB, List.Pairwise (fun a b : Query9Row =>
        nullableKey (tierRank a.package_category) ≤
          nullableKey (tierRank b.package_category))
      (query_9_skills_gap_analysis db)) := by
  have hMH : ("Medium Package (5-10L)" : String) ≠ "High Package (10L+)" := by decide
  have hEH : ("Entry Package (<5L)" : String) ≠ "High Package (10L+)" := by decide
  have hHM : ("High Package (10L+)" : String) ≠ "Medium Package (5-10L)" := by decide
  have hEM : ("Entry Package (<5L)" : String) ≠ "Medium Package (5-10L)" := by decide
  have hHE : ("High Package (10L+)" : String) ≠ "Entry Package (<5L)" := by decide
  have hME : ("Medium Package (5-10L)" : String) ≠ "Entry Package (<5L)" := by decide
  refine ⟨?_, by decide, by decide, by decide, ?_, ?_⟩
  · intro v
    by_cases h1 : (1000000 : ℤ) ≤ v
    · refine ⟨?_, ?_, ?_⟩ <;>
        simp [packageCategory, sqlGeOpt, sqlLtOpt, h1, hHM, hHE] <;> omega
    · by_cases h2 : (500000 : ℤ) ≤ v
      · refine ⟨?_, ?_, ?_⟩ <;>
          simp [packageCategory, sqlGeOpt, sqlLtOpt, h1, h2, hMH, hME] <;> omega
      · have h3 : v < 500000 := by omega
        refine ⟨?_, ?_, ?_⟩ <;>
          simp [packageCategory, sqlGeOpt, sqlLtOpt, h1, h2, h3, hEH, hEM]
  · intro db hinv row hrow
    obtain ⟨kg, hkg, rfl⟩ := mem_query_9.mp hrow
    obtain ⟨jr, hjr⟩ := group_nonempty hkg
    obtain ⟨hjrkept, hjrkey⟩ := of_mem_group hkg hjr
    obtain ⟨hjoin, hplaced⟩ := List.mem_filter.mp hjrkept
    simp only [decide_eq_true_eq] at hplaced
    obtain ⟨-, hp, -, -, -, -⟩ := mem_joinRows.mp hjoin
    have hpk : jr.p.placement_package.isSome = true :=
      ((hinv jr.p hp).2).mp hplaced
    obtain ⟨v, hv⟩ := Option.isSome_iff_exists.mp hpk
    have hcat : (query9Agg kg.1 kg.2).package_category = packageCategory (some v) := by
      rw [← hjrkey, ← hv]; rfl
    rw [hcat]
    by_cases h1 : (1000000 : ℤ) ≤ v
    · exact Or.inl (by simp [packageCategory, sqlGeOpt, h1])
    · by_cases h2 : (500000 : ℤ) ≤ v
      · exact Or.inr (Or.inl (by simp [packageCategory, sqlGeOpt, h1, h2]))
      · have h3 : v < 500000 := by omega
        exact Or.inr (Or.inr (by
          simp [packageCategory, sqlGeOpt, sqlLtOpt, h1, h2, h3]))
  · intro db
    exact pairwise_orderBy_key
      (f := fun r : Query9Row => nullableKey (tierRank r.package_category))
      (fun a b => optLeZ_iff) _

/-- Witness for C6: the example database satisfies the placement invariant,
and the conclusion holds for its skills-gap rows. -/
theorem skills_gap_package_tiers_witness :
    PlacedInvariant exDB ∧
      (∀ row ∈ query_9_skills_gap_analysis exDB,
        row.package_category = "High Package (10L+)" ∨
        row.package_category = "Medium Package (5-10L)" ∨
        row.package_category = "Entry Package (<5L)") :=
  ⟨by unfold PlacedInvariant; decide,
    skills_gap_package_tiers.2.2.2.2.1 exDB (by unfold PlacedInvariant; decide)⟩

/-- The boolean comparator of query 8 realises the ascending lexicographic
(status rank, interview score) order. -/
lemma q8Le_iff {a b : Query8Row} :
    q8Le a b = true ↔
      toLex (nullableKey (q8StatusRank a.placement_status), a.mock_interview_score) ≤
        toLex (nullableKey (q8StatusRank b.placement_status), b.mock_interview_score) := by
  rw [q8Le, Prod.Lex.le_iff]
  simp only [Bool.or_eq_true, Bool.and_eq_true, decide_eq_true_eq, optLtZ_iff,
    nullableKey_inj]

/-- C5: the improvement-needed query includes exactly the students with
placement status "Not Ready" or "In Progress" (inclusion needs the §3
well-formedness invariant); every row's improvement area is computed by
`improvementArea`, whose rules fire in strict priority order — interview
score < 50 gives "Interview Skills"; else max problems solved < 30 (false for
NULL) gives "Programming Practice"; else soft-skills average < 60 gives
"Soft Skills"; else zero internships gives "Practical Experience"; else
"General Improvement" — so the tag is deterministic and mutually exclusive
(interview 45 with 50 problems solved gives "Interview Skills" whatever the
other fields); and the rows are sorted with "In Progress" before "Not Ready",
then interview score ascending. -/
theorem improvement_query_statuses_tagging_order :
    (∀ db : DB, ∀ row ∈ query_8_students_needing_improvement db,
      row.placement_status = "Not Ready" ∨ row.placement_status = "In Progress") ∧
    (∀ db : DB, WellFormed db → ∀ s ∈ db.students, ∀ p ∈ db.placements,
      p.student_id = s.student_id →
      (p.placement_status = "Not Ready" ∨ p.placement_status = "In Progress") →
      ∃ row ∈ query_8_students_needing_improvement db,
        row.name = s.name ∧ row.course_batch = s.course_batch ∧
        row.city = s.city ∧ row.placement_status = p.placement_status ∧
        row.mock_interview_score = p.mock_interview_score ∧
        row.internships_completed = p.internships_completed) ∧
    (∀ (k : K18) (g : List JoinRow),
      (query8Agg k g).primary_improvement_area =
        improvementArea k.mock_interview_score
          (sqlMaxInt (g.map (fun jr => jr.prog.map (·.problems_solved))))
          (ssSumK k) k.internships_completed) ∧
    (∀ (mock : ℤ) (mp : Option ℤ) (sum6 intern : ℤ),
      (mock < 50 → improvementArea mock mp sum6 intern = "Interview Skills") ∧
      (¬mock < 50 → sqlLtOpt mp 30 = true →
        improvementArea mock mp sum6 intern = "Programming Practice") ∧
      (¬mock < 50 → sqlLtOpt mp 30 = false → (sum6 : ℚ) / 6 < 60 →
        improvementArea mock mp sum6 intern = "Soft Skills") ∧
      (¬mock < 50 → sqlLtOpt mp 30 = false → ¬(sum6 : ℚ) / 6 < 60 → intern = 0 →
        improvementArea mock mp sum6 intern = "Practical Experience") ∧
      (¬mock < 50 → sqlLtOpt mp 30 = false → ¬(sum6 : ℚ) / 6 < 60 → intern ≠ 0 →
        improvementArea mock mp sum6 intern = "General Improvement")) ∧
    (∀ sum6 intern : ℤ,
      improvementArea 45 (some 50) sum6 intern = "Interview Skills") ∧
    (∀ db : DB, List.Pairwise (fun a b : Query8Row =>
        toLex (nullableKey (q8StatusRank a.placement_status),
            a.mock_interview_score) ≤
          toLex (nullableKey (q8StatusRank b.placement_status),
            b.mock_interview_score))
      (query_8_students_needing_improvement db)) := by
  refine ⟨?_, ?_, ?_, ?_, ?_, ?_⟩
  · intro db row hrow
    obtain ⟨kg, hkg, rfl⟩ := mem_query_8.mp hrow
    obtain ⟨jr, hjr⟩ := group_nonempty hkg
    obtain ⟨hjrkept, hjrkey⟩ := of_mem_group hkg hjr
    obtain ⟨-, hstat⟩ := List.mem_filter.mp hjrkept
    simp only [Bool.or_eq_true, decide_eq_true_eq] at hstat
    have : (query8Agg kg.1 kg.2).placement_status = jr.p.placement_status := by
      rw [← hjrkey]; rfl
    rw [this]
    exact hstat
  · intro db hwf s hs p hp hps hstat
    obtain ⟨-, -, hone_ss⟩ := hwf
    obtain ⟨ss, hssfil⟩ := List.length_eq_one.mp (hone_ss s hs)
    have hssmem : ss ∈ db.soft_skills.filter
        (fun x => decide (x.student_id = s.student_id)) := by
      rw [hssfil]; simp
    obtain ⟨hss, hsss⟩ := List.mem_filter.mp hssmem
    simp only [decide_eq_true_eq] at hsss
    obtain ⟨o, hjr⟩ := exists_joinRow hs hp hps hss hsss
    have hpass : (fun jr : JoinRow =>
        decide (jr.p.placement_status = "Not Ready") ||
          decide (jr.p.placement_status = "In Progress")) ⟨s, p, ss, o⟩ = true := by
      rcases hstat with h | h <;> simp [h]
    have hkept : (⟨s, p, ss, o⟩ : JoinRow) ∈ (joinRows db).filter
        (fun jr => decide (jr.p.placement_status = "Not Ready") ||
          decide (jr.p.placement_status = "In Progress")) :=
      List.mem_filter.mpr ⟨hjr, hpass⟩
    have hkg : (k18 ⟨s, p, ss, o⟩, _) ∈ sqlGroupBy k18 ((joinRows db).filter
        (fun jr => decide (jr.p.placement_status = "Not Ready") ||
          decide (jr.p.placement_status = "In Progress"))) :=
      key_mem_sqlGroupBy hkept
    exact ⟨_, mem_query_8.mpr ⟨_, hkg, rfl⟩, rfl, rfl, rfl, rfl, rfl, rfl⟩
  · intro k g
    rfl
  · intro mock mp sum6 intern
    refine ⟨?_, ?_, ?_, ?_, ?_⟩
    · intro h1
      simp [improvementArea, h1]
    · intro h1 h2
      simp [improvementArea, h1, h2]
    · intro h1 h2 h3
      simp [improvementArea, h1, h2, h3]
    · intro h1 h2 h3 h4
      simp [improvementArea, h1, h2, h3, h4]
    · intro h1 h2 h3 h4
      simp [improvementArea, h1, h2, h3, h4]
  · intro sum6 intern
    simp [improvementArea]
  · intro db
    exact pairwise_orderBy_key
      (f := fun r : Query8Row =>
        toLex (nullableKey (q8StatusRank r.placement_status), r.mock_interview_score))
      (fun a b => q8Le_iff) _

/-- Witness for C5: the example database is well-formed, and student 3
("In Progress") appears in the improvement query. -/
theorem improvement_query_witness :
    WellFormed exDB ∧
      (∃ row ∈ query_8_students_needing_improvement exDB,
        row.name = exS3.name ∧ row.course_batch = exS3.course_batch ∧
        row.city = exS3.city ∧ row.placement_status = exP3.placement_status ∧
        row.mock_interview_score = exP3.mock_interview_score ∧
        row.internships_completed = exP3.internships_completed) :=
  ⟨by unfold WellFormed; decide,
    improvement_query_statuses_tagging_order.2.1 exDB (by unfold WellFormed; decide)
      exS3 (by decide) exP3 (by decide) (by decide) (Or.inr (by decide))⟩

/-- C4: the top-ready-students query restricts to statuses Ready and Placed —
every returned row has one of the two statuses, and (on a well-formed
database) every student with one of the two statuses yields a row of the
un-truncated ranking; each row's composite score is
`ROUND(0.4 × interview + 0.3 × (six-score sum)/6 + 0.3 × best project score, 1)`
(NULL when the student has no programming record); rows are ranked by
composite score descending; and the caller-supplied limit (10 by the Python
default) truncates the ranking to at most `limit` rows, every kept row being a
row of the full ranking. -/
theorem top_ready_students_ranking :
    (∀ db : DB, ∀ row ∈ query_1_rows db,
      row.placement_status = "Ready" ∨ row.placement_status = "Placed") ∧
    (∀ db : DB, WellFormed db → ∀ s ∈ db.students, ∀ p ∈ db.placements,
      p.student_id = s.student_id →
      (p.placement_status = "Ready" ∨ p.placement_status = "Placed") →
      ∃ row ∈ query_1_rows db,
        row.name = s.name ∧ row.course_batch = s.course_batch ∧
        row.city = s.city ∧ row.placement_status = p.placement_status ∧
        row.mock_interview_score = p.mock_interview_score ∧
        row.internships_completed = p.internships_completed) ∧
    (∀ (k : K18) (g : List JoinRow),
      (query1Agg k g).overall_score =
        (query1Agg k g).best_project_score.map (fun bp =>
          round1 ((0.4 : ℚ) * (k.mock_interview_score : ℚ) +
            (0.3 : ℚ) * ((ssSumK k : ℚ) / 6) + (0.3 : ℚ) * (bp : ℚ)))) ∧
    (∀ db : DB, List.Pairwise (fun a b : Query1Row =>
        nullableKey b.overall_score ≤ nullableKey a.overall_score)
      (query_1_rows db)) ∧
    (∀ (db : DB) (limit : ℕ),
      query_1_top_placement_ready_students db limit = (query_1_rows db).take limit ∧
      (query_1_top_placement_ready_students db limit).length ≤ limit ∧
      ∀ row ∈ query_1_top_placement_ready_students db limit,
        row ∈ query_1_rows db) := by
  refine ⟨?_, ?_, ?_, ?_, ?_⟩
  · intro db row hrow
    obtain ⟨kg, hkg, rfl⟩ := mem_query_1_rows.mp hrow
    obtain ⟨jr, hjr⟩ := group_nonempty hkg
    obtain ⟨hjrkept, hjrkey⟩ := of_mem_group hkg hjr
    obtain ⟨-, hstat⟩ := List.mem_filter.mp hjrkept
    simp only [Bool.or_eq_true, decide_eq_true_eq] at hstat
    have : (query1Agg kg.1 kg.2).placement_status = jr.p.placement_status := by
      rw [← hjrkey]; rfl
    rw [this]
    exact hstat
  · intro db hwf s hs p hp hps hstat
    obtain ⟨-, -, hone_ss⟩ := hwf
    obtain ⟨ss, hssfil⟩ := List.length_eq_one.mp (hone_ss s hs)
    have hssmem : ss ∈ db.soft_skills.filter
        (fun x => decide (x.student_id = s.student_id)) := by
      rw [hssfil]; simp
    obtain ⟨hss, hsss⟩ := List.mem_filter.mp hssmem
    simp only [decide_eq_true_eq] at hsss
    obtain ⟨o, hjr⟩ := exists_joinRow hs hp hps hss hsss
    have hpass : (fun jr : JoinRow =>
        decide (jr.p.placement_status = "Ready") ||
          decide (jr.p.placement_status = "Placed")) ⟨s, p, ss, o⟩ = true := by
      rcases hstat with h | h <;> simp [h]
    have hkept : (⟨s, p, ss, o⟩ : JoinRow) ∈ (joinRows db).filter
        (fun jr => decide (jr.p.placement_status = "Ready") ||
          decide (jr.p.placement_status = "Placed")) :=
      List.mem_filter.mpr ⟨hjr, hpass⟩
    have hkg : (k18 ⟨s, p, ss, o⟩, _) ∈ sqlGroupBy k18 ((joinRows db).filter
        (fun jr => decide (jr.p.placement_status = "Ready") ||
          decide (jr.p.placement_status = "Placed"))) :=
      key_mem_sqlGroupBy hkept
    exact ⟨_, mem_query_1_rows.mpr ⟨_, hkg, rfl⟩, rfl, rfl, rfl, rfl, rfl, rfl⟩
  · intro k g
    simp only [query1Agg]
    cases h : sqlMaxInt (g.map (fun jr => jr.prog.map (·.latest_project_score))) with
    | none => rfl
    | some m =>
        simp only [Option.map_some']
        congr 1
        congr 1
        ring
  · intro db
    exact pairwise_orderBy_key
      (f := fun r : Query1Row => OrderDual.toDual (nullableKey r.overall_score))
      (fun a b => by
        rw [show q1Le a b = optLeQ b.overall_score a.overall_score from rfl,
          optLeQ_iff]
        exact (OrderDual.toDual_le_toDual (a := nullableKey a.overall_score)
          (b := nullableKey b.overall_score)).symm) _ |>.imp
      (fun hab => OrderDual.toDual_le_toDual.mp hab)
  · intro db limit
    refine ⟨rfl, List.length_take_le _ _, ?_⟩
    intro row hrow
    exact List.mem_of_mem_take hrow

/-- Witness for C4: the example database is well-formed, and student 2
(Placed) appears in the un-truncated ranking. -/
theorem top_ready_students_witness :
    WellFormed exDB ∧
      (∃ row ∈ query_1_rows exDB,
        row.name = exS2.name ∧ row.course_batch = exS2.course_batch ∧
        row.city = exS2.city ∧ row.placement_status = exP2.placement_status ∧
        row.mock_interview_score = exP2.mock_interview_score ∧
        row.internships_completed = exP2.internships_completed) :=
  ⟨by unfold WellFormed; decide,
    top_ready_students_ranking.2.1 exDB (by unfold WellFormed; decide)
      exS2 (by decide) exP2 (by decide) (by decide) (Or.inr (by decide))⟩

/-- C8: on a well-formed database, the `avg_soft_skills` value that
`get_eligible_students` computes for a student equals the arithmetic mean of
that student's six integer skill scores rounded to one decimal place; in
particular the mean of (80, 70, 90, 60, 75, 85) rounds to 76.7. -/
theorem soft_skills_average_is_rounded_mean :
    (∀ (db : DB) (c : Criteria), WellFormed db →
      ∀ row ∈ get_eligible_students db c,
        ∃ ss ∈ db.soft_skills, ss.student_id = row.student_id ∧
          row.avg_soft_skills = round1 (((ss.communication : ℚ) + ss.teamwork +
            ss.presentation + ss.leadership + ss.critical_thinking +
            ss.interpersonal_skills) / 6)) ∧
    round1 (((80 : ℚ) + 70 + 90 + 60 + 75 + 85) / 6) = 76.7 := by
  constructor
  · intro db c hwf row hrow
    obtain ⟨kg, hkg, rfl⟩ := mem_get_eligible_students.mp hrow
    obtain ⟨jr0, hjr0⟩ := group_nonempty hkg
    obtain ⟨hjr0kept, hjr0key⟩ := of_mem_group hkg hjr0
    have hjr0join : jr0 ∈ joinRows db := (List.mem_filter.mp hjr0kept).1
    obtain ⟨-, -, -, hss0, hsss0, -⟩ := mem_joinRows.mp hjr0join
    refine ⟨jr0.ss, hss0, ?_, ?_⟩
    · have : (eligAgg kg.1 kg.2).student_id = kg.1.student_id := rfl
      rw [this, ← hjr0key]
      exact hsss0
    · have hconst : ∀ x ∈ kg.2.map (fun jr => ssSum jr.ss), x = ssSum jr0.ss := by
        intro x hx
        obtain ⟨jr, hjr, rfl⟩ := List.mem_map.mp hx
        obtain ⟨hjrkept, hjrkey⟩ := of_mem_group hkg hjr
        have hjrjoin : jr ∈ joinRows db := (List.mem_filter.mp hjrkept).1
        have hsid : jr.s.student_id = jr0.s.student_id := by
          have h1 : (eKey jr).student_id = kg.1.student_id := by rw [hjrkey]
          have h2 : (eKey jr0).student_id = kg.1.student_id := by rw [hjr0key]
          have := h1.trans h2.symm
          exact this
        have := joinRow_same_student hwf hjrjoin hjr0join hsid
        rw [this.2.2]
      have hne : kg.2.map (fun jr => ssSum jr.ss) ≠ [] := by
        intro h
        have : (ssSum jr0.ss) ∈ kg.2.map (fun jr => ssSum jr.ss) :=
          List.mem_map.mpr ⟨jr0, hjr0, rfl⟩
        rw [h] at this
        exact absurd this (List.not_mem_nil _)
      have havg : (eligAgg kg.1 kg.2).avg_soft_skills =
          round1 (sqlAvgInt (kg.2.map (fun jr => ssSum jr.ss)) / 6) := rfl
      rw [havg, sqlAvgInt_const hne hconst, ssSum]
      push_cast
      ring_nf
  · norm_num [round1, round_eq]

/-- Witness for C8: the example database is well-formed, and the conclusion
holds for its eligible rows (student 1 carries the example scores). -/
theorem soft_skills_average_witness :
    WellFormed exDB ∧
      (∀ row ∈ get_eligible_students exDB {},
        ∃ ss ∈ exDB.soft_skills, ss.student_id = row.student_id ∧
          row.avg_soft_skills = round1 (((ss.communication : ℚ) + ss.teamwork +
            ss.presentation + ss.leadership + ss.critical_thinking +
            ss.interpersonal_skills) / 6)) :=
  ⟨by unfold WellFormed; decide,
    soft_skills_average_is_rounded_mean.1 exDB {} (by unfold WellFormed; decide)⟩
